import Mathlib

/-!
Verification of the stream-URL registry and byte-range proxy of
ClashStream (src/server.js), as a shallow embedding in Lean.

The registry is the module-level `urlCache` (a JS `Map` from stream-id
strings to `{ url, expires }` records).  The proxy endpoint
`GET /proxy/:streamId` looks the id up, and on a hit forwards a range
request upstream, mirroring status and selected headers.
-/

namespace ClashStream

/-- A cached registry entry, mirroring the object literal
`{ url: ..., expires: Date.now() + 3600000 }` stored in `urlCache`
(src/server.js lines 74-77 and 174-177).  Times are absolute
milliseconds, as `Date.now()` returns. -/
structure CacheEntry where
  url : String
  expires : Nat
  deriving Repr, DecidableEq

/-- The registry state: the JS `Map` `urlCache` modelled as an
association list in insertion order (JS `Map` preserves insertion
order; keys are unique). -/
abbrev UrlCache := List (String × CacheEntry)

/-- Model of `urlCache.get(id)`: first (and, with unique keys, only) binding of
`id`. -/
def urlCacheGet (m : UrlCache) (id : String) : Option CacheEntry :=
  (m.find? (fun p => p.1 == id)).map (·.2)

/-- Model of `urlCache.set(id, e)`: replace in place when the key is present,
otherwise append (JS `Map.set` semantics). -/
def urlCacheSet (m : UrlCache) (id : String) (e : CacheEntry) : UrlCache :=
  if m.any (fun p => p.1 == id) then
    m.map (fun p => if p.1 == id then (id, e) else p)
  else
    m ++ [(id, e)]

/-- The cleanup loop of the search handler (src/server.js lines 80-84):
`for (const [key, value] of urlCache) if (value.expires < Date.now())
urlCache.delete(key)`.  Keeps exactly the entries with
`¬ (expires < now)`. -/
def sweep (m : UrlCache) (now : Nat) : UrlCache :=
  m.filter (fun p => !(p.2.expires < now))

/-- The TTL added to `Date.now()` at registration: `3600000` ms
(src/server.js lines 76 and 176). -/
def streamTtl : Nat := 3600000

/-- Registration with an explicit TTL: `urlCache.set(streamId, { url,
expires: now + ttl })` where `streamId` is already generated.  Returns
the id and the updated registry. -/
def registerTtl (m : UrlCache) (id : String) (url : String) (now ttl : Nat) :
    String × UrlCache :=
  (id, urlCacheSet m id ⟨url, now + ttl⟩)

/-- Registration as the code performs it, with the fixed one-hour TTL
(src/server.js lines 74-77, 174-177). -/
def register (m : UrlCache) (id : String) (url : String) (now : Nat) :
    String × UrlCache :=
  registerTtl m id url now streamTtl

/-- The proxy's resolve step (src/server.js lines 227-232): `const
cached = urlCache.get(streamId)`; a hit yields `cached.url`.  Note the
source consults only presence in the map — `expires` is not read
here. -/
def resolve (m : UrlCache) (id : String) : Option String :=
  (urlCacheGet m id).map (·.url)

/-- The exact JSON body sent with the 404 (src/server.js line 229). -/
def notFoundBody : String := "\x7b\"error\":\"Stream not found or expired\"\x7d"

/-- The exact JSON body sent with the 500 on upstream failure
(src/server.js line 271). -/
def streamFailedBody : String := "\x7b\"error\":\"Stream failed\"\x7d"

/-- Outcome of the dispatch stage of `GET /proxy/:streamId`
(src/server.js lines 227-249): either the immediate response (status
and body) with no upstream request, or the upstream URL that will be
contacted. -/
structure DispatchResult where
  status : Option Nat
  body : Option String
  upstreamRequested : Bool
  upstreamUrl : Option String
  deriving Repr, DecidableEq

/-- Handler `GET /proxy/:streamId`, dispatch stage: when `urlCache.get`
misses, respond `404` with `notFoundBody` and return (no upstream
request); otherwise proceed to the outbound request against
`cached.url` (src/server.js lines 227-245). -/
def proxyDispatch (m : UrlCache) (id : String) : DispatchResult :=
  match urlCacheGet m id with
  | none => ⟨some 404, some notFoundBody, false, none⟩
  | some c => ⟨none, none, true, some c.url⟩

/-- JS `a || b` on a possibly-absent string: an absent OR empty (falsy)
string selects the default. -/
def jsOrString (a : Option String) (b : String) : String :=
  match a with
  | none => b
  | some s => if s = "" then b else s

/-- The fixed browser-like User-Agent sent upstream (src/server.js
line 247). -/
def proxyUserAgent : String :=
  "Mozilla/5.0 (Windows NT 10.0; Win64; x64) AppleWebKit/537.36 (KHTML, like Gecko) Chrome/120.0.0.0 Safari/537.36"

/-- Headers of the outbound upstream request. -/
structure UpstreamRequestHeaders where
  userAgent : String
  range : String
  deriving Repr, DecidableEq

/-- Outbound request construction (src/server.js lines 245-249):
`'Range': req.headers.range || 'bytes=0-'` plus the fixed
User-Agent. -/
def buildUpstreamRequest (clientRange : Option String) : UpstreamRequestHeaders :=
  ⟨proxyUserAgent, jsOrString clientRange "bytes=0-"⟩

/-- The fields of an upstream response the handler reads: status code
and the three headers it may forward.  `none` models an absent header;
Node exposes a present-but-empty header as `some ""`. -/
structure UpstreamResponse where
  statusCode : Nat
  contentType : Option String
  contentLength : Option String
  contentRange : Option String
  deriving Repr, DecidableEq

/-- Headers of the outer (client-facing) response that the handler
touches. -/
structure ResponseHeaders where
  contentType : Option String
  acceptRanges : Option String
  cacheControl : Option String
  contentLength : Option String
  contentRange : Option String
  deriving Repr, DecidableEq

/-- Headers set before the upstream request is opened (src/server.js
lines 237-239): `Content-Type: audio/webm`, `Accept-Ranges: bytes`,
`Cache-Control: no-cache`. -/
def initialProxyHeaders : ResponseHeaders :=
  ⟨some "audio/webm", some "bytes", some "no-cache", none, none⟩

/-- JS truthiness test on a possibly-absent header value: `undefined`
and `""` are falsy. -/
def jsTruthy (a : Option String) : Bool :=
  match a with
  | none => false
  | some s => !(s = "")

/-- The upstream-response callback (src/server.js lines 250-262):
`res.status(proxyRes.statusCode)`, then each of `content-type`,
`content-length`, `content-range` is copied onto the outer response
when (JS-)truthy on the upstream one. -/
def applyUpstreamResponse (h : ResponseHeaders) (u : UpstreamResponse) :
    Nat × ResponseHeaders :=
  (u.statusCode,
    { h with
      contentType := if jsTruthy u.contentType then u.contentType else h.contentType
      contentLength := if jsTruthy u.contentLength then u.contentLength else h.contentLength
      contentRange := if jsTruthy u.contentRange then u.contentRange else h.contentRange })

/-- Status and headers of the outer response once the upstream
response has arrived: the callback applied to the pre-set headers. -/
def proxySuccessResponse (u : UpstreamResponse) : Nat × ResponseHeaders :=
  applyUpstreamResponse initialProxyHeaders u

/-- Registry update performed by the `/search` handler at registration
time (src/server.js lines 73-84): `urlCache.set(...)` followed by the
cleanup loop. -/
def searchCacheUpdate (m : UrlCache) (id url : String) (now : Nat) : UrlCache :=
  sweep (register m id url now).2 now

/-- Registry update performed by the `/play/:videoId` handler
(src/server.js lines 173-177): `urlCache.set(...)` only — this handler
has no cleanup loop. -/
def playCacheUpdate (m : UrlCache) (id url : String) (now : Nat) : UrlCache :=
  (register m id url now).2

/-- Per-request connection state of the proxy handler once the
outbound request has been opened. -/
structure ProxyConn where
  headersSent : Bool
  status : Nat
  errorBody : Option String
  upstreamDestroyed : Bool
  bytesFromUpstream : Nat
  responseEnded : Bool
  deriving Repr, DecidableEq

/-- Events delivered to the handler's callbacks for one proxied
request. -/
inductive ProxyEvent where
  | upstreamResponse (u : UpstreamResponse)
  | upstreamData (n : Nat)
  | upstreamError
  | clientClose
  deriving Repr, DecidableEq

/-- One step of the per-request event loop, from the handlers
installed in src/server.js lines 250-278:
* upstream response / data: forwarded to the client (`res.status`,
  `proxyRes.pipe(res)`); a destroyed outbound request delivers no
  further response or data events (the contract of
  `http.ClientRequest.destroy`, the black-box collaborator here);
* `proxyReq.on('error')` (lines 268-273): if `res.headersSent` is
  false, respond `500` with `streamFailedBody`, else only the ongoing
  response terminates;
* `req.on('close')` (lines 276-278): `proxyReq.destroy()`. -/
def proxyStep (s : ProxyConn) : ProxyEvent → ProxyConn
  | .upstreamResponse u =>
      if s.upstreamDestroyed then s
      else { s with status := u.statusCode, headersSent := true }
  | .upstreamData n =>
      if s.upstreamDestroyed then s
      else { s with bytesFromUpstream := s.bytesFromUpstream + n, headersSent := true }
  | .upstreamError =>
      if s.headersSent then { s with responseEnded := true }
      else { s with status := 500, errorBody := some streamFailedBody, responseEnded := true }
  | .clientClose => { s with upstreamDestroyed := true }

/-- Run the event loop over a list of events. -/
def proxyRun (s : ProxyConn) (evs : List ProxyEvent) : ProxyConn :=
  evs.foldl proxyStep s

/-- The digit alphabet of JS `Number.prototype.toString(36)`:
`0`-`9` then `a`-`z`. -/
def digitChar36 (d : Nat) : Char :=
  if d < 10 then Char.ofNat (48 + d) else Char.ofNat (87 + d)

/-- Little-endian base-36 digit expansion, with an explicit fuel
argument so the recursion is structural. -/
def digitsAux36 : Nat → Nat → List Nat
  | _, 0 => []
  | 0, _ + 1 => []
  | fuel + 1, n + 1 => ((n + 1) % 36) :: digitsAux36 fuel ((n + 1) / 36)

/-- Little-endian base-36 digits of `n` (`[]` for `0`). -/
def digits36 (n : Nat) : List Nat := digitsAux36 n n

/-- JS `n.toString(36)` for a non-negative integer `n`: base-36 digits,
most significant first; `0` renders as `"0"`. -/
def natToBase36 (n : Nat) : String :=
  if n = 0 then "0" else String.mk (((digits36 n).map digitChar36).reverse)

/-- Stream-id generation (src/server.js lines 73 and 173):
`Date.now().toString(36) + Math.random().toString(36).substring(2, 8)`.
`randSlice` is the `substring(2, 8)` slice of the random draw's base-36
rendering: up to six characters after the leading `"0."`. -/
def generateStreamId (timeMs : Nat) (randSlice : String) : String :=
  natToBase36 timeMs ++ randSlice

/-- The ids produced by a sequence of registration calls, each
characterised by its `Date.now()` reading and its random slice. -/
def registrationIds (calls : List (Nat × String)) : List String :=
  calls.map fun c => generateStreamId c.1 c.2

/-! ## Registry lemmas -/

theorem find?_replace (m : UrlCache) (id : String) (e : CacheEntry)
    (h : m.any (fun p => p.1 == id) = true) :
    (m.map (fun p => if p.1 == id then (id, e) else p)).find?
      (fun p => p.1 == id) = some (id, e) := by
  induction m with
  | nil => simp at h
  | cons hd tl ih =>
    simp only [List.map_cons]
    by_cases hhd : (hd.1 == id) = true
    · rw [if_pos hhd, List.find?_cons_of_pos]
      simp
    · simp only [List.any_cons, hhd, Bool.false_or] at h
      rw [if_neg hhd, List.find?_cons_of_neg _ (by simpa using hhd)]
      exact ih h

theorem find?_append_of_not_mem (m : UrlCache) (id : String) (e : CacheEntry)
    (h : m.any (fun p => p.1 == id) = false) :
    (m ++ [(id, e)]).find? (fun p => p.1 == id) = some (id, e) := by
  induction m with
  | nil => simp
  | cons hd tl ih =>
    simp only [List.any_cons, Bool.or_eq_false_iff] at h
    rw [List.cons_append, List.find?_cons_of_neg _ (by simp [h.1]), ih h.2]

theorem urlCacheGet_set (m : UrlCache) (id : String) (e : CacheEntry) :
    urlCacheGet (urlCacheSet m id e) id = some e := by
  unfold urlCacheGet urlCacheSet
  split
  · rename_i h
    rw [find?_replace m id e h]
    rfl
  · rename_i h
    rw [find?_append_of_not_mem m id e (by rwa [Bool.not_eq_true] at h)]
    rfl

/-! ## Claims -/

/-- C1 (counterexample): the claim "a registry entry with
`now ≥ expiresAt` resolves to NotFound even before sweep removes it"
is false on the code: the `/proxy` handler reads only
`urlCache.get(streamId)` and never consults `expires`.  Concretely,
with an entry expiring at time 5 still in the map at time 10, the
lookup still returns the URL. -/
theorem C1_counterexample :
    urlCacheGet [("a", CacheEntry.mk "u" 5)] "a" = some (CacheEntry.mk "u" 5) ∧
    (10 : Nat) ≥ 5 ∧
    resolve [("a", CacheEntry.mk "u" 5)] "a" ≠ none := by
  decide

/-- C1 (amended): a proxy lookup returns the stored URL whenever the
id is present in the registry map, regardless of how `now` compares to
the entry's `expiresAt`; NotFound arises only when the id is absent,
i.e. expired entries are masked only once `sweep` physically removes
them. -/
theorem C1_amended (m : UrlCache) (id : String) (e : CacheEntry) (now : Nat)
    (hget : urlCacheGet m id = some e) (_hexp : now ≥ e.expires) :
    resolve m id = some e.url := by
  simp [resolve, hget]

theorem C1_amended_witness :
    urlCacheGet [("a", CacheEntry.mk "u" 5)] "a" = some (CacheEntry.mk "u" 5) ∧
    (10 : Nat) ≥ 5 ∧
    resolve [("a", CacheEntry.mk "u" 5)] "a" = some "u" :=
  ⟨by decide, by decide,
    C1_amended [("a", CacheEntry.mk "u" 5)] "a" (CacheEntry.mk "u" 5) 10
      (by decide) (by decide)⟩

/-- C2: resolving the id returned by a registration immediately after
the registration yields exactly the registered URL, for every registry
state, id, URL, time and TTL. -/
theorem C2_resolve_after_register (m : UrlCache) (id url : String) (now ttl : Nat) :
    resolve (registerTtl m id url now ttl).2 (registerTtl m id url now ttl).1 =
      some url := by
  simp [registerTtl, resolve, urlCacheGet_set]

/-- C3 (counterexample): the claim says the 404 for a never-registered
id is identical in shape to the response for an expired id.  But an
expired id still present in the registry (expiry 5, current time 10)
is proxied rather than refused, so its response differs from the 404
produced for the unregistered id "b". -/
theorem C3_counterexample :
    (10 : Nat) ≥ 5 ∧
    urlCacheGet [("a", CacheEntry.mk "u" 5)] "b" = none ∧
    proxyDispatch [("a", CacheEntry.mk "u" 5)] "b" =
      ⟨some 404, some notFoundBody, false, none⟩ ∧
    proxyDispatch [("a", CacheEntry.mk "u" 5)] "a" ≠
      proxyDispatch [("a", CacheEntry.mk "u" 5)] "b" := by
  decide

/-- C3 (amended): for every id absent from the registry — which covers
every never-registered id and every expired id that `sweep` has
already evicted — `GET /proxy/:id` responds 404 with exactly the
`notFoundBody` JSON and initiates no upstream request, and any two such
ids receive identical responses. -/
theorem C3_amended (m : UrlCache) (idA idB : String)
    (hA : urlCacheGet m idA = none) (hB : urlCacheGet m idB = none) :
    proxyDispatch m idA = ⟨some 404, some notFoundBody, false, none⟩ ∧
    proxyDispatch m idA = proxyDispatch m idB := by
  simp [proxyDispatch, hA, hB]

theorem C3_amended_witness :
    urlCacheGet [("a", CacheEntry.mk "u" 5)] "b" = none ∧
    urlCacheGet [("a", CacheEntry.mk "u" 5)] "c" = none ∧
    proxyDispatch [("a", CacheEntry.mk "u" 5)] "b" =
      ⟨some 404, some notFoundBody, false, none⟩ :=
  ⟨by decide, by decide,
    (C3_amended [("a", CacheEntry.mk "u" 5)] "b" "c" (by decide) (by decide)).1⟩

/-- C4 (counterexample): the claim says Content-Type, Content-Length
and Content-Range are forwarded unchanged "whenever the upstream
provided them".  The handler guards each copy with a JS truthiness
test (`if (proxyRes.headers['content-type'])`), so an upstream
response that provides `Content-Type` with the empty value is not
forwarded: the outer response keeps the pre-set `audio/webm`. -/
theorem C4_counterexample :
    (UpstreamResponse.mk 206 (some "") none none).contentType = some "" ∧
    (proxySuccessResponse (UpstreamResponse.mk 206 (some "") none none)).2.contentType =
      some "audio/webm" ∧
    some "audio/webm" ≠ (some "" : Option String) := by
  decide

/-- C4 (amended): for every upstream response, the outer response
mirrors the upstream status code, always carries
`Accept-Ranges: bytes` and `Cache-Control: no-cache`, and forwards
Content-Type, Content-Length and Content-Range values unchanged
whenever the upstream provided them with a non-empty value. -/
theorem C4_amended (u : UpstreamResponse) :
    (proxySuccessResponse u).1 = u.statusCode ∧
    (proxySuccessResponse u).2.acceptRanges = some "bytes" ∧
    (proxySuccessResponse u).2.cacheControl = some "no-cache" ∧
    (∀ v, u.contentType = some v → v ≠ "" →
      (proxySuccessResponse u).2.contentType = some v) ∧
    (∀ v, u.contentLength = some v → v ≠ "" →
      (proxySuccessResponse u).2.contentLength = some v) ∧
    (∀ v, u.contentRange = some v → v ≠ "" →
      (proxySuccessResponse u).2.contentRange = some v) := by
  refine ⟨rfl, rfl, rfl, ?_, ?_, ?_⟩ <;>
    intro v hv hne <;>
    simp [proxySuccessResponse, applyUpstreamResponse, jsTruthy, hv, hne]

theorem C4_amended_witness :
    (UpstreamResponse.mk 206 (some "audio/mp4") (some "100")
        (some "bytes 100-199/500")).contentRange = some "bytes 100-199/500" ∧
    "bytes 100-199/500" ≠ "" ∧
    (proxySuccessResponse (UpstreamResponse.mk 206 (some "audio/mp4") (some "100")
        (some "bytes 100-199/500"))).1 = 206 ∧
    (proxySuccessResponse (UpstreamResponse.mk 206 (some "audio/mp4") (some "100")
        (some "bytes 100-199/500"))).2.contentRange = some "bytes 100-199/500" :=
  ⟨rfl, by decide,
    (C4_amended (UpstreamResponse.mk 206 (some "audio/mp4") (some "100")
        (some "bytes 100-199/500"))).1,
    (C4_amended (UpstreamResponse.mk 206 (some "audio/mp4") (some "100")
        (some "bytes 100-199/500"))).2.2.2.2.2 "bytes 100-199/500" rfl (by decide)⟩

/-- C5 (counterexample): the claim says the outbound request carries
the client's Range header value whenever the client supplied one.  The
source computes `req.headers.range || 'bytes=0-'`, and JS `||` treats
the empty string as falsy, so a client-supplied empty Range header is
replaced by the default rather than carried. -/
theorem C5_counterexample :
    (buildUpstreamRequest (some "")).range = "bytes=0-" ∧
    "bytes=0-" ≠ "" := by
  decide

/-- C5 (amended): the outbound upstream request always carries the
fixed browser-like User-Agent; it carries the client's Range header
value whenever the client supplied a non-empty one, and the
entire-resource range `bytes=0-` when the client supplied none or an
empty one. -/
theorem C5_amended (r : Option String) :
    (buildUpstreamRequest r).userAgent = proxyUserAgent ∧
    (∀ s, r = some s → s ≠ "" → (buildUpstreamRequest r).range = s) ∧
    (r = none ∨ r = some "" → (buildUpstreamRequest r).range = "bytes=0-") := by
  refine ⟨rfl, ?_, ?_⟩
  · intro s hs hne
    simp [buildUpstreamRequest, jsOrString, hs, hne]
  · rintro (h | h) <;> simp [buildUpstreamRequest, jsOrString, h]

theorem C5_amended_witness :
    (some "bytes=100-199" : Option String) = some "bytes=100-199" ∧
    "bytes=100-199" ≠ "" ∧
    (buildUpstreamRequest (some "bytes=100-199")).userAgent = proxyUserAgent ∧
    (buildUpstreamRequest (some "bytes=100-199")).range = "bytes=100-199" :=
  ⟨rfl, by decide, (C5_amended (some "bytes=100-199")).1,
    (C5_amended (some "bytes=100-199")).2.1 "bytes=100-199" rfl (by decide)⟩

/-- C6: when the outbound upstream request errors, the handler checks
`res.headersSent`: before headers are sent it responds 500 with the
`streamFailedBody` JSON; after headers are sent the status and any
previous body are left unchanged and the response is merely
terminated. -/
theorem C6_upstream_error (s : ProxyConn) :
    (s.headersSent = false →
      proxyStep s .upstreamError =
        { s with status := 500, errorBody := some streamFailedBody,
                 responseEnded := true }) ∧
    (s.headersSent = true →
      (proxyStep s .upstreamError).status = s.status ∧
      (proxyStep s .upstreamError).errorBody = s.errorBody ∧
      (proxyStep s .upstreamError).responseEnded = true) := by
  constructor <;> intro h <;> simp [proxyStep, h]

theorem C6_upstream_error_witness :
    (ProxyConn.mk false 200 none false 0 false).headersSent = false ∧
    proxyStep (ProxyConn.mk false 200 none false 0 false) .upstreamError =
      ProxyConn.mk false 500 (some streamFailedBody) false 0 true :=
  ⟨rfl, (C6_upstream_error (ProxyConn.mk false 200 none false 0 false)).1 rfl⟩

theorem proxyRun_destroyed (evs : List ProxyEvent) :
    ∀ s : ProxyConn, s.upstreamDestroyed = true →
      (proxyRun s evs).bytesFromUpstream = s.bytesFromUpstream ∧
      (proxyRun s evs).upstreamDestroyed = true := by
  induction evs with
  | nil => exact fun s h => ⟨rfl, h⟩
  | cons e rest ih =>
    intro s h
    have hstep : (proxyStep s e).bytesFromUpstream = s.bytesFromUpstream ∧
        (proxyStep s e).upstreamDestroyed = true := by
      cases e with
      | upstreamResponse u => simp [proxyStep, h]
      | upstreamData n => simp [proxyStep, h]
      | upstreamError => cases hs : s.headersSent <;> simp [proxyStep, hs, h]
      | clientClose => simp [proxyStep]
    have hrest := ih (proxyStep s e) hstep.2
    exact ⟨hrest.1.trans hstep.1, hrest.2⟩

/-- C9: processing the client's close event destroys the outbound
upstream request in that very step (`req.on('close', () =>
proxyReq.destroy())`), and under whatever events follow, the count of
bytes read from the upstream never increases again: a destroyed
outbound request delivers no further data. -/
theorem C9_client_close (s : ProxyConn) (evs : List ProxyEvent) :
    (proxyStep s .clientClose).upstreamDestroyed = true ∧
    (proxyRun (proxyStep s .clientClose) evs).bytesFromUpstream =
      s.bytesFromUpstream := by
  have hdes : (proxyStep s .clientClose).upstreamDestroyed = true := by
    simp [proxyStep]
  have hbytes : (proxyStep s .clientClose).bytesFromUpstream =
      s.bytesFromUpstream := by
    simp [proxyStep]
  exact ⟨hdes, ((proxyRun_destroyed evs _ hdes).1).trans hbytes⟩

/-- C10: when the upstream response carries no Content-Type header,
the outer response still carries the `audio/webm` default set before
the upstream request was opened, rather than omitting the header. -/
theorem C10_default_content_type (u : UpstreamResponse)
    (h : u.contentType = none) :
    (proxySuccessResponse u).2.contentType = some "audio/webm" := by
  simp [proxySuccessResponse, applyUpstreamResponse, jsTruthy, h,
    initialProxyHeaders]

theorem C10_default_content_type_witness :
    (UpstreamResponse.mk 200 none none none).contentType = none ∧
    (proxySuccessResponse (UpstreamResponse.mk 200 none none none)).2.contentType =
      some "audio/webm" :=
  ⟨rfl, C10_default_content_type (UpstreamResponse.mk 200 none none none) rfl⟩

/-- C7 (counterexample): the claim says the sweep runs after each
registration.  The `/play/:videoId` handler registers without the
cleanup loop, so an already-expired entry (expiry 5, registration at
time 10) survives a `/play` registration. -/
theorem C7_counterexample :
    ("old", CacheEntry.mk "u" 5) ∈
      playCacheUpdate [("old", CacheEntry.mk "u" 5)] "new1" "u2" 10 ∧
    (5 : Nat) < 10 := by
  decide

/-- C7 (amended): `sweep` removes every entry whose expiry has passed
— afterwards no entry with `expires < now` remains in the registry
map (true eviction) — and it runs after the registration performed by
the `/search` handler; the `/play` handler, by contrast, registers
without sweeping. -/
theorem C7_amended (m : UrlCache) (now : Nat) (id url : String) :
    (∀ p ∈ sweep m now, ¬ p.2.expires < now) ∧
    (∀ p ∈ searchCacheUpdate m id url now, ¬ p.2.expires < now) := by
  constructor
  · intro p hp
    have h := List.mem_filter.mp hp
    simpa using h.2
  · intro p hp
    simp only [searchCacheUpdate, sweep] at hp
    have h := List.mem_filter.mp hp
    simpa using h.2

theorem C7_amended_witness :
    ("a", CacheEntry.mk "u" 5) ∈ sweep [("a", CacheEntry.mk "u" 5)] 3 ∧
    ¬ (("a", CacheEntry.mk "u" 5) : String × CacheEntry).2.expires < 3 :=
  ⟨by decide,
    (C7_amended [("a", CacheEntry.mk "u" 5)] 3 "b" "u2").1
      ("a", CacheEntry.mk "u" 5) (by decide)⟩

/-! ## Base-36 rendering lemmas (for the stream-id claims) -/

theorem digitsAux36_fuel :
    ∀ (n f₁ f₂ : Nat), n ≤ f₁ → n ≤ f₂ →
      digitsAux36 f₁ n = digitsAux36 f₂ n := by
  intro n
  induction n using Nat.strong_induction_on with
  | _ n ih =>
    match n with
    | 0 =>
      intro f₁ f₂ _ _
      cases f₁ <;> cases f₂ <;> rfl
    | k + 1 =>
      intro f₁ f₂ h₁ h₂
      obtain ⟨a, rfl⟩ : ∃ a, f₁ = a + 1 := ⟨f₁ - 1, by omega⟩
      obtain ⟨b, rfl⟩ : ∃ b, f₂ = b + 1 := ⟨f₂ - 1, by omega⟩
      show ((k + 1) % 36) :: digitsAux36 a ((k + 1) / 36) =
        ((k + 1) % 36) :: digitsAux36 b ((k + 1) / 36)
      have hlt : (k + 1) / 36 < k + 1 :=
        Nat.div_lt_self (Nat.succ_pos k) (by norm_num)
      rw [ih _ hlt a b (by omega) (by omega)]

theorem digits36_succ (k : Nat) :
    digits36 (k + 1) = ((k + 1) % 36) :: digits36 ((k + 1) / 36) := by
  have hlt : (k + 1) / 36 < k + 1 :=
    Nat.div_lt_self (Nat.succ_pos k) (by norm_num)
  have h1 : digitsAux36 (k + 1) (k + 1) =
      ((k + 1) % 36) :: digitsAux36 k ((k + 1) / 36) := rfl
  rw [digits36, h1,
    digitsAux36_fuel ((k + 1) / 36) k ((k + 1) / 36) (by omega) (le_refl _)]
  rfl

theorem digits36_eq_nil (n : Nat) : digits36 n = [] ↔ n = 0 := by
  cases n with
  | zero => simp [digits36, digitsAux36]
  | succ k => simp [digits36_succ]

theorem digits36_inj : ∀ m n : Nat, digits36 m = digits36 n → m = n := by
  intro m
  induction m using Nat.strong_induction_on with
  | _ m ih =>
    intro n h
    match m, n with
    | 0, 0 => rfl
    | 0, k + 1 =>
      rw [digits36_succ] at h
      exact absurd h.symm (List.cons_ne_nil _ _)
    | j + 1, 0 =>
      rw [digits36_succ] at h
      exact absurd h (List.cons_ne_nil _ _)
    | j + 1, k + 1 =>
      rw [digits36_succ, digits36_succ] at h
      injection h with h1 h2
      have hlt : (j + 1) / 36 < j + 1 :=
        Nat.div_lt_self (Nat.succ_pos j) (by norm_num)
      have hdiv := ih _ hlt _ h2
      omega

theorem digits36_lt : ∀ n : Nat, ∀ d ∈ digits36 n, d < 36 := by
  intro n
  induction n using Nat.strong_induction_on with
  | _ n ih =>
    match n with
    | 0 => intro d hd; simp [digits36, digitsAux36] at hd
    | k + 1 =>
      intro d hd
      rw [digits36_succ] at hd
      rcases List.mem_cons.mp hd with h | h
      · subst h; exact Nat.mod_lt _ (by norm_num)
      · have hlt : (k + 1) / 36 < k + 1 :=
          Nat.div_lt_self (Nat.succ_pos k) (by norm_num)
        exact ih _ hlt d h

theorem digitChar36_inj :
    ∀ a, a < 36 → ∀ b, b < 36 → digitChar36 a = digitChar36 b → a = b := by
  decide

theorem map_digitChar36_inj :
    ∀ l₁ l₂ : List Nat, (∀ d ∈ l₁, d < 36) → (∀ d ∈ l₂, d < 36) →
      l₁.map digitChar36 = l₂.map digitChar36 → l₁ = l₂ := by
  intro l₁
  induction l₁ with
  | nil =>
    intro l₂ _ _ h
    cases l₂ with
    | nil => rfl
    | cons b t => simp at h
  | cons a t ih =>
    intro l₂ h₁ h₂ h
    cases l₂ with
    | nil => simp at h
    | cons b t₂ =>
      simp only [List.map_cons, List.cons.injEq] at h
      have hab := digitChar36_inj a (h₁ a (by simp)) b (h₂ b (by simp)) h.1
      have ht := ih t₂ (fun d hd => h₁ d (by simp [hd]))
        (fun d hd => h₂ d (by simp [hd])) h.2
      rw [hab, ht]

theorem map_digitChar36_eq_singleton {l : List Nat} {c : Char}
    (h : l.map digitChar36 = [c]) : ∃ d, l = [d] ∧ digitChar36 d = c := by
  cases l with
  | nil => simp at h
  | cons a t =>
    cases t with
    | nil =>
      simp only [List.map_cons, List.map_nil, List.cons.injEq] at h
      exact ⟨a, rfl, h.1⟩
    | cons b t' => simp at h

theorem digits36_ne_zero_singleton (n : Nat) (hn : n ≠ 0) :
    digits36 n ≠ [0] := by
  intro h
  obtain ⟨k, rfl⟩ : ∃ k, n = k + 1 := ⟨n - 1, by omega⟩
  rw [digits36_succ] at h
  simp only [List.cons.injEq] at h
  have hdiv : (k + 1) / 36 = 0 := (digits36_eq_nil _).mp h.2
  omega

theorem natToBase36_inj : ∀ m n : Nat, natToBase36 m = natToBase36 n → m = n := by
  intro m n h
  by_cases hm : m = 0 <;> by_cases hn : n = 0
  · omega
  · exfalso
    rw [natToBase36, natToBase36, if_pos hm, if_neg hn] at h
    have hd := congrArg String.data h
    have hd2 : ((digits36 n).map digitChar36).reverse = ['0'] := hd.symm
    have hd3 : (digits36 n).map digitChar36 = ['0'] := by
      have := congrArg List.reverse hd2
      simpa using this
    obtain ⟨d, hdl, hdc⟩ := map_digitChar36_eq_singleton hd3
    have hdlt : d < 36 := digits36_lt n d (by simp [hdl])
    have hd0 : d = 0 := by
      have : digitChar36 d = digitChar36 0 := by
        rw [hdc]; rfl
      exact digitChar36_inj d hdlt 0 (by norm_num) this
    exact digits36_ne_zero_singleton n hn (by rw [hdl, hd0])
  · exfalso
    rw [natToBase36, natToBase36, if_neg hm, if_pos hn] at h
    have hd := congrArg String.data h
    have hd3 : (digits36 m).map digitChar36 = ['0'] := by
      have := congrArg List.reverse hd
      simpa using this
    obtain ⟨d, hdl, hdc⟩ := map_digitChar36_eq_singleton hd3
    have hdlt : d < 36 := digits36_lt m d (by simp [hdl])
    have hd0 : d = 0 := by
      have : digitChar36 d = digitChar36 0 := by
        rw [hdc]; rfl
      exact digitChar36_inj d hdlt 0 (by norm_num) this
    exact digits36_ne_zero_singleton m hm (by rw [hdl, hd0])
  · rw [natToBase36, natToBase36, if_neg hm, if_neg hn] at h
    have hd := congrArg String.data h
    have hrev : ((digits36 m).map digitChar36).reverse =
        ((digits36 n).map digitChar36).reverse := hd
    have hmap : (digits36 m).map digitChar36 = (digits36 n).map digitChar36 := by
      have := congrArg List.reverse hrev
      simpa using this
    exact digits36_inj m n
      (map_digitChar36_inj _ _ (digits36_lt m) (digits36_lt n) hmap)

/-- C8 (counterexample): the claim that two distinct registration
calls always obtain distinct ids is false: the generator is
`Date.now().toString(36)` plus a slice of `Math.random().toString(36)`,
so two calls in the same millisecond whose random draws render to the
same 6-character slice — possible, if improbable — produce the same
id.  Calls 0 and 1 of this two-call trace collide. -/
theorem C8_counterexample :
    (0 : Nat) ≠ 1 ∧
    (registrationIds [(100, "abc123"), (100, "abc123")]).get? 0 =
      (registrationIds [(100, "abc123"), (100, "abc123")]).get? 1 ∧
    (registrationIds [(100, "abc123"), (100, "abc123")]).get? 0 ≠ none := by
  decide

/-- C8 (amended): id generation is injective in its inputs whenever
the random slices have equal length (the generic case — the slice is
6 characters): two registration calls whose (millisecond timestamp,
random slice) pairs differ in either component yield distinct ids.
Collisions require the same millisecond and the same random slice. -/
theorem C8_amended (tA tB : Nat) (sA sB : String)
    (hlen : sA.length = sB.length) (hne : (tA, sA) ≠ (tB, sB)) :
    generateStreamId tA sA ≠ generateStreamId tB sB := by
  intro h
  apply hne
  unfold generateStreamId at h
  have hdata := congrArg String.data h
  rw [String.data_append, String.data_append] at hdata
  have hslen : sA.data.length = sB.data.length := hlen
  obtain ⟨h1, h2⟩ := List.append_inj' hdata hslen
  have ht : tA = tB := natToBase36_inj _ _ (String.ext h1)
  have hs : sA = sB := String.ext h2
  rw [ht, hs]

theorem C8_amended_witness :
    ("abc123" : String).length = ("abc123" : String).length ∧
    ((1 : Nat), ("abc123" : String)) ≠ ((2 : Nat), ("abc123" : String)) ∧
    generateStreamId 1 "abc123" ≠ generateStreamId 2 "abc123" :=
  ⟨rfl, by decide, C8_amended 1 2 "abc123" "abc123" rfl (by decide)⟩

end ClashStream
